import Mathlib

/-
Verification development for the realtime websocket gateway
(src/services/realtime_ws.rs of echokit_server).

Embedding conventions:
- UUID strings (`Uuid::new_v4().to_string()`) are modelled as natural numbers
  minted from a monotone counter; distinct mints yield distinct values,
  which is the only property the code relies on.
- Raw audio bytes are modelled as `List Nat`; base64 encoding/decoding is an
  external injective codec, so `delta: base64(frame)` fields carry the decoded
  byte list directly.
- External services (VAD, ASR, the LLM chunk stream, the TTS providers and the
  websocket channel) are inputs of the functions they influence: their outcomes
  are passed as explicit parameters (`Except` values, chunk lists, frame lists).
- `f32` values that are only stored and echoed (temperature) are modelled as
  rationals.
-/

namespace EchoKit

/-- Mint a fresh id (models `Uuid::new_v4().to_string()`); the argument is the
generator state: the next unused counter value. -/
def mint (g : Nat) : Nat × Nat := (g, g + 1)

/-- Constant from realtime_ws.rs line 18. -/
def STANDARD_ERROR_RESPONSE : String := "抱歉，我没能理解您的回复。请您换种表达方式重新说一下"

inductive Modality where
  | text
  | audio
deriving DecidableEq

inductive AudioFormat where
  | pcm16
  | g711Ulaw
  | g711Alaw
deriving DecidableEq

inductive TurnDetectionType where
  | serverVad
  | noDetection
deriving DecidableEq

/-- Modelled from the spec: `turn_detection` config of the openai realtime
types module (not under src/); carries the detection type and the optional
`create_response: bool` field which defaults to true. -/
structure TurnDetection where
  turn_type : TurnDetectionType
  create_response : Option Bool
deriving DecidableEq

inductive ToolChoice where
  | auto
  | required
  | choiceNone
deriving DecidableEq

inductive Role where
  | user
  | assistant
  | system
  | tool
deriving DecidableEq

structure ToolFunction where
  name : String
  arguments : String
deriving DecidableEq

structure ToolCall where
  id : Nat
  type_ : String
  function : ToolFunction
deriving DecidableEq

/-- Modelled from the spec: a `ChatHistory` record `{role, message, tool_calls?,
tool_call_id?}` (the `crate::ai::llm::Content` type is not under src/). -/
structure Content where
  role : Role
  message : String
  tool_calls : Option (List ToolCall)
  tool_call_id : Option Nat
deriving DecidableEq

/-- Modelled from the spec: the opaque external chat-history container; the
core pushes to the back of `messages` and reads the back; `system_prompts`
holds the system prompts. -/
structure ChatSession where
  system_prompts : List Content
  messages : List Content
deriving DecidableEq

/-- Modelled from the spec: `ChatHistory` push of a user message to the back. -/
def add_user_message (cs : ChatSession) (text : String) : ChatSession :=
  { cs with messages := cs.messages ++ [⟨Role.user, text, none, none⟩] }

/-- Modelled from the spec: `ChatHistory` push of an assistant message to the back. -/
def add_assistant_message (cs : ChatSession) (text : String) : ChatSession :=
  { cs with messages := cs.messages ++ [⟨Role.assistant, text, none, none⟩] }

/-- All-optional session configuration (openai realtime `SessionConfig`);
`tools` and `input_audio_transcription` payloads are opaque. -/
structure SessionConfig where
  modalities : Option (List Modality)
  instructions : Option String
  input_audio_format : Option AudioFormat
  output_audio_format : Option AudioFormat
  input_audio_transcription : Option String
  turn_detection : Option TurnDetection
  tools : Option (List String)
  tool_choice : Option ToolChoice
  temperature : Option ℚ
  max_output_tokens : Option Nat
deriving DecidableEq

/-- `SessionConfig::default()`: every field unset. -/
def SessionConfig.default : SessionConfig :=
  ⟨none, none, none, none, none, none, none, none, none, none⟩

/-- The effective session rendered in `session.created` / `session.updated`. -/
structure Session where
  id : Nat
  object : String
  model : String
  modalities : List Modality
  instructions : String
  voice : String
  input_audio_format : AudioFormat
  output_audio_format : AudioFormat
  input_audio_transcription : Option String
  turn_detection : Option TurnDetection
  tools : Option (List String)
  tool_choice : Option ToolChoice
  temperature : Option ℚ
  max_output_tokens : Option Nat
deriving DecidableEq

inductive ContentPart where
  | text (text : String)
  | inputText (text : String)
  | inputAudio (audio : List Nat) (transcript : Option String)
  | audio (audio : Option (List Nat)) (transcript : Option String)
deriving DecidableEq

structure ConversationItem where
  id : Option Nat
  object : Option String
  item_type : String
  status : Option String
  role : Option String
  content : Option (List ContentPart)
  call_id : Option Nat
  name : Option String
  arguments : Option String
  output : Option String
deriving DecidableEq

structure Response where
  id : Nat
  object : String
  status : String
  status_details : Option String
  output : Option (List ConversationItem)
  usage : Option String
deriving DecidableEq

structure ErrorDetails where
  error_type : String
  code : Option String
  message : String
  param : Option String
  event_id : Option Nat
deriving DecidableEq

inductive ServerEvent where
  | sessionCreated (event_id : Nat) (session : Session)
  | sessionUpdated (event_id : Nat) (session : Session)
  | conversationCreated (event_id : Nat) (conversation_id : Nat)
  | conversationItemCreated (event_id : Nat) (previous_item_id : Option Nat)
      (item : ConversationItem)
  | conversationItemInputAudioTranscriptionCompleted (event_id : Nat) (item_id : Nat)
      (content_index : Nat) (transcript : String)
  | inputAudioBufferCommitted (event_id : Nat) (previous_item_id : Option Nat) (item_id : Nat)
  | inputAudioBufferCleared (event_id : Nat)
  | responseCreated (event_id : Nat) (response : Response)
  | responseOutputItemAdded (event_id : Nat) (response_id : Nat) (output_index : Nat)
      (item : ConversationItem)
  | responseOutputItemDone (event_id : Nat) (response_id : Nat) (output_index : Nat)
      (item : ConversationItem)
  | responseContentPartAdded (event_id : Nat) (response_id : Nat) (item_id : Nat)
      (output_index : Nat) (content_index : Nat) (part : ContentPart)
  | responseContentPartDone (event_id : Nat) (response_id : Nat) (item_id : Nat)
      (output_index : Nat) (content_index : Nat) (part : ContentPart)
  | responseTextDelta (event_id : Nat) (response_id : Nat) (item_id : Nat)
      (output_index : Nat) (content_index : Nat) (delta : String)
  | responseTextDone (event_id : Nat) (response_id : Nat) (item_id : Nat)
      (output_index : Nat) (content_index : Nat) (text : String)
  | responseAudioDelta (event_id : Nat) (response_id : Nat) (item_id : Nat)
      (output_index : Nat) (content_index : Nat) (delta : List Nat)
  | responseAudioDone (event_id : Nat) (response_id : Nat) (item_id : Nat)
      (output_index : Nat) (content_index : Nat)
  | responseDone (event_id : Nat) (response : Response)
  | conversationInterrupted (event_id : Nat)
  | errorEvent (event_id : Nat) (error : ErrorDetails)
deriving DecidableEq

/-- Per-connection session state (`RealtimeSession`, realtime_ws.rs lines 30-38;
the reqwest client is an external handle and is omitted). -/
structure RealtimeSession where
  chat_session : ChatSession
  id : Nat
  config : SessionConfig
  input_audio_buffer : List Nat
  is_generating : Bool
deriving DecidableEq

/-- The `Session` payload of the initial `session.created` frame
(realtime_ws.rs lines 87-105). -/
def initial_session (sid : Nat) : Session :=
  ⟨sid, "realtime.session", "gpt-4o-realtime-preview",
   [Modality.text, Modality.audio],
   "You are a helpful assistant.", "default",
   AudioFormat.pcm16, AudioFormat.pcm16, none,
   some ⟨TurnDetectionType.noDetection, none⟩,
   none, some ToolChoice.auto, some (4 / 5 : ℚ), none⟩

/-- `extract_text_from_content` (realtime_ws.rs lines 801-812). -/
def extract_text_from_content (content : List ContentPart) : String :=
  String.intercalate " " (content.filterMap fun part =>
    match part with
    | ContentPart.text t => some t
    | ContentPart.inputText t => some t
    | ContentPart.inputAudio _ transcript => transcript
    | ContentPart.audio _ transcript => transcript)

/-- The `session.update` arm of `handle_client_message`
(realtime_ws.rs lines 198-295): validate formats and turn detection, else
replace the config and emit `session.updated`. -/
def handle_session_update (s : RealtimeSession) (config : SessionConfig)
    (llm_model : String) (tts_voice : String) (g : Nat) :
    List ServerEvent × RealtimeSession × Nat :=
  if (config.input_audio_format.map fun f => f != AudioFormat.pcm16).getD false then
    let (e, g1) := mint g
    ([ServerEvent.errorEvent e
        ⟨"invalid_request_error", some "unsupported_audio_format",
         "Only PCM16 input audio format is supported", some "input_audio_format", none⟩],
     s, g1)
  else if (config.output_audio_format.map fun f => f != AudioFormat.pcm16).getD false then
    let (e, g1) := mint g
    ([ServerEvent.errorEvent e
        ⟨"invalid_request_error", some "unsupported_audio_format",
         "Only PCM16 output audio format is supported", some "output_audio_format", none⟩],
     s, g1)
  else if (config.turn_detection.map fun td => td.turn_type == TurnDetectionType.serverVad).getD
      false then
    let (e, g1) := mint g
    ([ServerEvent.errorEvent e
        ⟨"invalid_request_error", some "unsupported_turn_detection",
         "Server VAD turn detection is not supported", some "turn_detection.type", none⟩],
     s, g1)
  else
    let s1 := { s with config := config }
    let updated_session : Session :=
      ⟨s1.id, "realtime.session", llm_model,
       (s1.config.modalities.getD [Modality.text, Modality.audio]),
       (s1.config.instructions.getD "You are a helpful assistant."),
       tts_voice,
       (s1.config.input_audio_format.getD AudioFormat.pcm16),
       (s1.config.output_audio_format.getD AudioFormat.pcm16),
       s1.config.input_audio_transcription,
       s1.config.turn_detection,
       s1.config.tools,
       s1.config.tool_choice,
       s1.config.temperature,
       s1.config.max_output_tokens⟩
    let (e, g1) := mint g
    ([ServerEvent.sessionUpdated e updated_session], s1, g1)

/-- Overwrite of the first system prompt's message used by the system-role arm
of `conversation.item.create` (realtime_ws.rs lines 337-345:
`system_prompts.first_mut().map(|prompt| prompt.message = text)`). -/
def set_first_system_prompt (cs : ChatSession) (text : String) : ChatSession :=
  match cs.system_prompts with
  | [] => cs
  | p :: ps => { cs with system_prompts := { p with message := text } :: ps }

/-- The `conversation.item.create` arm of `handle_client_message`
(realtime_ws.rs lines 318-395). -/
def handle_item_create (s : RealtimeSession) (previous_item_id : Option Nat)
    (item : ConversationItem) (g : Nat) : List ServerEvent × RealtimeSession × Nat :=
  let s1 :=
    match item.item_type with
    | "message" =>
      match item.role with
      | some "user" =>
        match item.content with
        | some content =>
          { s with chat_session :=
              add_user_message s.chat_session (extract_text_from_content content) }
        | none => s
      | some "assistant" =>
        match item.content with
        | some content =>
          { s with chat_session :=
              add_assistant_message s.chat_session (extract_text_from_content content) }
        | none => s
      | some "system" =>
        match item.content with
        | some content =>
          { s with chat_session :=
              set_first_system_prompt s.chat_session (extract_text_from_content content) }
        | none => s
      | _ => s
    | "function_call" =>
      match item.arguments with
      | some args =>
        { s with chat_session :=
            { s.chat_session with messages := s.chat_session.messages ++
              [⟨Role.assistant, "",
                some [⟨item.id.getD 0, "function", ⟨item.name.getD "", args⟩⟩], none⟩] } }
      | none => s
    | "function_call_output" =>
      match item.output with
      | some out =>
        { s with chat_session :=
            { s.chat_session with messages := s.chat_session.messages ++
              [⟨Role.tool, out, none, item.id⟩] } }
      | none => s
    | _ => s
  let (e, g1) := mint g
  ([ServerEvent.conversationItemCreated e previous_item_id item], s1, g1)

deriving instance DecidableEq for Except

/-- Result of `handle_audio_buffer_commit`: events sent so far, the updated
session, the generator, and either the propagated error (`?` on the VAD or ASR
call) or the `create_response` decision. -/
structure CommitResult where
  events : List ServerEvent
  session : RealtimeSession
  g : Nat
  result : Except Unit Bool
deriving DecidableEq

/-- The ASR stage of `handle_audio_buffer_commit` (realtime_ws.rs lines
477-535), reached when VAD is unconfigured or reported speech. The ASR
outcome is an external input (`asrOut`). -/
def commit_asr_stage (s : RealtimeSession) (item_id : Nat) (audio_data : List Nat)
    (asrOut : Except Unit (List String)) (evCommitted : ServerEvent) (g : Nat) : CommitResult :=
  match asrOut with
  | Except.error e => ⟨[evCommitted], s, g, Except.error e⟩
  | Except.ok text_results =>
    let transcript := String.intercalate "\n" text_results
    let user_item : ConversationItem :=
      ⟨some item_id, some "realtime.item", "message", some "completed", some "user",
       some [ContentPart.inputAudio audio_data (some transcript)],
       none, none, none, none⟩
    let s1 := { s with chat_session := add_user_message s.chat_session transcript }
    let (e2, g1) := mint g
    let item_created := ServerEvent.conversationItemCreated e2 none user_item
    let (e3, g2) := mint g1
    let transcription_completed :=
      ServerEvent.conversationItemInputAudioTranscriptionCompleted e3 item_id 0 transcript
    let should_generate_response :=
      ((s1.config.turn_detection.bind fun td => td.create_response).getD true)
    ⟨[evCommitted, item_created, transcription_completed], s1, g2,
     Except.ok should_generate_response⟩

/-- `handle_audio_buffer_commit` (realtime_ws.rs lines 436-536). The VAD
outcome (list of speech timestamps, when `vad_url` is configured) and the ASR
outcome are external inputs. -/
def handle_audio_buffer_commit (s : RealtimeSession) (item_id? : Option Nat)
    (vad_url : Option String) (vadOut : Except Unit (List (Nat × Nat)))
    (asrOut : Except Unit (List String)) (g : Nat) : CommitResult :=
  let audio_data := s.input_audio_buffer
  let s0 := { s with input_audio_buffer := [] }
  let (item_id, g0) :=
    match item_id? with
    | some i => (i, g)
    | none => mint g
  if audio_data.isEmpty then ⟨[], s0, g0, Except.ok false⟩
  else
    let (e1, g1) := mint g0
    let evCommitted := ServerEvent.inputAudioBufferCommitted e1 none item_id
    match vad_url with
    | some _ =>
      match vadOut with
      | Except.error e => ⟨[evCommitted], s0, g1, Except.error e⟩
      | Except.ok vad =>
        if vad.isEmpty then
          let (e2, g2) := mint g1
          ⟨[evCommitted,
            ServerEvent.conversationItemInputAudioTranscriptionCompleted e2 item_id 0 ""],
           s0, g2, Except.ok false⟩
        else commit_asr_stage s0 item_id audio_data asrOut evCommitted g1
    | none => commit_asr_stage s0 item_id audio_data asrOut evCommitted g1

/-- One outcome of `response.next_chunk()` in the LLM stream loop
(`StableLLMResponseChunk` plus the `Err` case of the `Result`). -/
inductive LLMChunk where
  | text (s : String)
  | stop
  | functions
  | err
deriving DecidableEq

/-- Rust `str::trim`: strip leading and trailing whitespace. Modelled directly
on the character list (the whitespace class is the common ASCII one; no claim
involves exotic Unicode whitespace). -/
def rustTrim (s : String) : String :=
  ⟨((s.data.dropWhile Char.isWhitespace).reverse.dropWhile Char.isWhitespace).reverse⟩

/-- Validity test applied to each LLM text chunk (realtime_ws.rs line 644):
trimmed text non-empty and not literally "()" or "[]". -/
def validText (s : String) : Bool :=
  !(rustTrim s).isEmpty && rustTrim s != "()" && rustTrim s != "[]"

/-- Emission of the TTS audio frames of one LLM chunk, abstracting
`tts_and_send` / `send_wav` / `send_stream_chunk`: the PCM frames produced by
the external TTS provider are passed in, and each is sent as a
`response.audio.delta` with `output_index` 0, `content_index` 1 and
`item_id = item_id.clone().unwrap_or_default()`. -/
def sendFrames (response_id : Nat) (item_id : Option Nat) :
    List (List Nat) → Nat → List ServerEvent × Nat
  | [], g => ([], g)
  | f :: fs, g =>
    let (eid, g1) := mint g
    let r := sendFrames response_id item_id fs g1
    (ServerEvent.responseAudioDelta eid response_id (item_id.getD 0) 0 1 f :: r.1, r.2)

/-- The LLM streaming loop of `generate_response` (realtime_ws.rs lines
640-685). `ttsfr n` gives the PCM frames the TTS returns for the n-th text
chunk (external input). Returns (events, llm_response, has_valid_response,
generator). -/
def llmLoop (sga : Bool) (response_id iid : Nat) (ttsfr : Nat → List (List Nat)) :
    List LLMChunk → Nat → String → Bool → Nat → List ServerEvent × String × Bool × Nat
  | [], _, acc, hv, g => ([], acc, hv, g)
  | LLMChunk.stop :: _, _, acc, hv, g => ([], acc, hv, g)
  | LLMChunk.functions :: cks, n, acc, hv, g =>
    llmLoop sga response_id iid ttsfr cks n acc hv g
  | LLMChunk.err :: _, _, _, _, g => ([], STANDARD_ERROR_RESPONSE, true, g)
  | LLMChunk.text t :: cks, n, acc, hv, g =>
    let hv1 := hv || validText t
    let acc1 := acc ++ t
    let (eid, g1) := mint g
    let (tid, g2) := mint g1
    let ev := ServerEvent.responseTextDelta eid response_id tid 0 0 t
    let tts := if sga then sendFrames response_id (some iid) (ttsfr n) g2 else ([], g2)
    let L := llmLoop sga response_id iid ttsfr cks (n + 1) acc1 hv1 tts.2
    (ev :: tts.1 ++ L.1, L.2)

/-- Result of `generate_response`: events sent, updated session, generator, and
whether the function returned `Ok` (`ok = false` models the `?` propagation
when the initial `chat_session.complete()` call fails). -/
structure GenResult where
  events : List ServerEvent
  session : RealtimeSession
  g : Nat
  ok : Bool
deriving DecidableEq

/-- Test for the last-message gate of `generate_response`
(realtime_ws.rs lines 543-548). -/
def lastIsAssistant (cs : ChatSession) : Bool :=
  match cs.messages.getLast? with
  | some c => c.role = Role.assistant
  | none => false

/-- `generate_response` (realtime_ws.rs lines 538-799). `llm = none` models
`chat_session.complete()` returning `Err` (propagated by `?`); `llm = some cks`
models a successful stream whose successive `next_chunk()` outcomes are `cks`.
`ttsfr` gives the externally produced TTS frames per text chunk. -/
def generate_response (s : RealtimeSession) (llm : Option (List LLMChunk))
    (ttsfr : Nat → List (List Nat)) (g : Nat) : GenResult :=
  if lastIsAssistant s.chat_session then ⟨[], s, g, true⟩
  else
    let should_generate_audio :=
      (s.config.modalities.map fun m => m.contains Modality.audio).getD false
    if s.is_generating then ⟨[], s, g, true⟩
    else
      let s1 := { s with is_generating := true }
      let (response_id, g1) := mint g
      let (e1, g2) := mint g1
      let evCreated := ServerEvent.responseCreated e1
        ⟨response_id, "realtime.response", "in_progress", none, none, none⟩
      let (iid, g3) := mint g2
      let assistant_item : ConversationItem :=
        ⟨some iid, some "realtime.item", "message", some "in_progress", some "assistant",
         some [ContentPart.text ""], none, none, none, none⟩
      let (e2, g4) := mint g3
      let evItemAdded := ServerEvent.responseOutputItemAdded e2 response_id 0 assistant_item
      let (e3, g5) := mint g4
      let evPart0 := ServerEvent.responseContentPartAdded e3 response_id iid 0 0
        (ContentPart.text "")
      let (preAudio, g6) :=
        if should_generate_audio then
          let (e4, g') := mint g5
          ([ServerEvent.responseContentPartAdded e4 response_id iid 0 1
              (ContentPart.audio none none)], g')
        else ([], g5)
      let pre := evCreated :: evItemAdded :: evPart0 :: preAudio
      match llm with
      | none => ⟨pre, s1, g6, false⟩
      | some cks =>
        let L := llmLoop should_generate_audio response_id iid ttsfr cks 0 "" false g6
        let llm_response :=
          if !L.2.2.1 || (rustTrim L.2.1).isEmpty then STANDARD_ERROR_RESPONSE else L.2.1
        let (e5, g8) := mint L.2.2.2
        let (tid, g9) := mint g8
        let evTextDone := ServerEvent.responseTextDone e5 response_id tid 0 0 llm_response
        let (e6, g10) := mint g9
        let evPartDone0 := ServerEvent.responseContentPartDone e6 response_id iid 0 0
          (ContentPart.text llm_response)
        let (audioDoneEvs, g11) :=
          if should_generate_audio then
            let (e7, g') := mint g10
            let (e8, g'') := mint g'
            ([ServerEvent.responseAudioDone e7 response_id iid 0 1,
              ServerEvent.responseContentPartDone e8 response_id iid 0 1
                (ContentPart.audio none (some llm_response))], g'')
          else ([], g10)
        let final_item : ConversationItem :=
          ⟨some iid, some "realtime.item", "message", some "completed", some "assistant",
           some (if should_generate_audio then
               [ContentPart.text llm_response, ContentPart.audio none (some llm_response)]
             else [ContentPart.text llm_response]),
           none, none, none, none⟩
        let s2 := { s1 with
          chat_session := add_assistant_message s1.chat_session llm_response,
          is_generating := false }
        let (e9, g12) := mint g11
        let evItemDone := ServerEvent.responseOutputItemDone e9 response_id 0 final_item
        let (e10, g13) := mint g12
        let evDone := ServerEvent.responseDone e10
          ⟨response_id, "realtime.response", "completed", none, none, none⟩
        ⟨pre ++ L.1 ++ [evTextDone, evPartDone0] ++ audioDoneEvs ++ [evItemDone, evDone],
         s2, g13, true⟩

/-- The `input_audio_buffer.commit` arm of `handle_client_message`
(realtime_ws.rs lines 302-307): run the commit subpipeline and, when it
returns true, `generate_response`. -/
def handle_commit_message (s : RealtimeSession) (vad_url : Option String)
    (vadOut : Except Unit (List (Nat × Nat))) (asrOut : Except Unit (List String))
    (llm : Option (List LLMChunk)) (ttsfr : Nat → List (List Nat)) (g : Nat) :
    List ServerEvent × RealtimeSession × Nat × Except Unit Unit :=
  let c := handle_audio_buffer_commit s none vad_url vadOut asrOut g
  match c.result with
  | Except.error e => (c.events, c.session, c.g, Except.error e)
  | Except.ok true =>
    let r := generate_response c.session llm ttsfr c.g
    (c.events ++ r.events, r.session, r.g,
     if r.ok then Except.ok () else Except.error ())
  | Except.ok false => (c.events, c.session, c.g, Except.ok ())

/-- `read_chunk_size` in `send_stream_chunk` (realtime_ws.rs line 881):
0.5 seconds of mono 16-bit audio at 16 kHz. -/
def readChunkSize : Nat := 2 * 5 * 16000 / 10

/-- The inner `for samples_16k_data in chunk.chunks(read_chunk_size)` loop of
`send_stream_chunk` (realtime_ws.rs lines 918-937), always entered with an
empty residual: yields the full frames sent, and the short final piece that is
moved into the residual buffer. -/
def chunkFrames (c : List Nat) : List (List Nat) × List Nat :=
  if c.length < readChunkSize then ([], c)
  else
    let r := chunkFrames (c.drop readChunkSize)
    (c.take readChunkSize :: r.1, r.2)
termination_by c.length
decreasing_by
  have h32 : readChunkSize = 16000 := by decide
  simp only [List.length_drop]
  omega

/-- One iteration of the `'next_chunk` loop of `send_stream_chunk`
(realtime_ws.rs lines 883-938): first the residual-buffer fill-and-flush
branch, then the inner loop over chunks of read_chunk_size bytes. Yields the frames sent for this
HTTP chunk and the new residual. -/
def processChunk (rest chunk : List Nat) : List (List Nat) × List Nat :=
  if rest.length > 0 then
    if chunk.length + rest.length > readChunkSize then
      let n := readChunkSize - rest.length
      let frame := rest ++ chunk.take n
      let r := chunkFrames (chunk.drop n)
      (frame :: r.1, r.2)
    else ([], rest ++ chunk)
  else chunkFrames chunk

/-- The frame sequence produced by `send_stream_chunk` over the whole HTTP
byte stream (list of HTTP chunks), including the final flush of a non-empty
residual (realtime_ws.rs lines 940-954). -/
def streamFrames : List Nat → List (List Nat) → List (List Nat)
  | rest, [] => if rest.length > 0 then [rest] else []
  | rest, c :: cs =>
    let p := processChunk rest c
    p.1 ++ streamFrames p.2 cs

/-- `send_stream_chunk` (realtime_ws.rs lines 869-957), with the HTTP body
passed as its list of byte chunks: factored as the pure framing
(`streamFrames`, which mirrors the loop and its residual buffer `rest`)
followed by the in-order emission of one `response.audio.delta` per frame. -/
def send_stream_chunk (response_id : Nat) (item_id : Option Nat)
    (chunks : List (List Nat)) (g : Nat) : List ServerEvent × Nat :=
  sendFrames response_id item_id (streamFrames [] chunks) g

/-- Greedy chunking of a byte sequence into `readChunkSize`-byte frames with a
short final frame: the closed form that `streamFrames` computes. -/
def chunksCanon (l : List Nat) : List (List Nat) :=
  if l.isEmpty then []
  else l.take readChunkSize :: chunksCanon (l.drop readChunkSize)
termination_by l.length
decreasing_by
  have h32 : readChunkSize = 16000 := by decide
  have hl : 0 < l.length := by
    cases l with
    | nil => simp at *
    | cons a t => simp
  simp only [List.length_drop]
  omega

/-- Content index and decoded payload length of a `response.audio.delta`. -/
def audioDeltaShape : ServerEvent → Nat × Nat
  | ServerEvent.responseAudioDelta _ _ _ _ ci d => (ci, d.length)
  | _ => (0, 0)

/-- The `item_id` fields of `response.text.delta` / `response.text.done`
events, in emission order. -/
def textItemIds (evs : List ServerEvent) : List Nat :=
  evs.filterMap fun e =>
    match e with
    | ServerEvent.responseTextDelta _ _ i _ _ _ => some i
    | ServerEvent.responseTextDone _ _ i _ _ _ => some i
    | _ => none

/-- The `item_id` fields of `response.content_part.*`, `response.audio.delta`
and `response.audio.done` events, in emission order. -/
def partItemIds (evs : List ServerEvent) : List Nat :=
  evs.filterMap fun e =>
    match e with
    | ServerEvent.responseContentPartAdded _ _ i _ _ _ => some i
    | ServerEvent.responseContentPartDone _ _ i _ _ _ => some i
    | ServerEvent.responseAudioDelta _ _ i _ _ _ => some i
    | ServerEvent.responseAudioDone _ _ i _ _ => some i
    | _ => none

/-- The `item.id` fields of `response.output_item.added` /
`response.output_item.done` events, in emission order. -/
def outputItemIds (evs : List ServerEvent) : List (Option Nat) :=
  evs.filterMap fun e =>
    match e with
    | ServerEvent.responseOutputItemAdded _ _ _ it => some it.id
    | ServerEvent.responseOutputItemDone _ _ _ it => some it.id
    | _ => none

/-- The `item_id` fields of
`conversation.item.input_audio_transcription.completed` events. -/
def transcriptIds (evs : List ServerEvent) : List Nat :=
  evs.filterMap fun e =>
    match e with
    | ServerEvent.conversationItemInputAudioTranscriptionCompleted _ i _ _ => some i
    | _ => none

/-- The `item_id` fields of `input_audio_buffer.committed` events. -/
def committedIds (evs : List ServerEvent) : List Nat :=
  evs.filterMap fun e =>
    match e with
    | ServerEvent.inputAudioBufferCommitted _ _ i => some i
    | _ => none

/-- The `text` fields of `response.text.done` events. -/
def textDoneTexts (evs : List ServerEvent) : List String :=
  evs.filterMap fun e =>
    match e with
    | ServerEvent.responseTextDone _ _ _ _ _ t => some t
    | _ => none

def isResponseCreated : ServerEvent → Bool
  | ServerEvent.responseCreated _ _ => true
  | _ => false

def isResponseDone : ServerEvent → Bool
  | ServerEvent.responseDone _ _ => true
  | _ => false

def isSessionUpdatedEvent : ServerEvent → Bool
  | ServerEvent.sessionUpdated _ _ => true
  | _ => false

/-- An event documenting an audio content part: `response.audio.delta`,
`response.audio.done`, or a `response.content_part.*` with `content_index` 1. -/
def isAudioRelatedEvent : ServerEvent → Bool
  | ServerEvent.responseAudioDelta _ _ _ _ _ _ => true
  | ServerEvent.responseAudioDone _ _ _ _ _ => true
  | ServerEvent.responseContentPartAdded _ _ _ _ ci _ => ci == 1
  | ServerEvent.responseContentPartDone _ _ _ _ ci _ => ci == 1
  | _ => false

/-- The text payloads the LLM loop consumes before its first terminator
(`Stop`, `Err`, or end of stream). -/
def streamTexts : List LLMChunk → List String
  | [] => []
  | LLMChunk.stop :: _ => []
  | LLMChunk.err :: _ => []
  | LLMChunk.text t :: cks => t :: streamTexts cks
  | LLMChunk.functions :: cks => streamTexts cks

/-- Concatenation of the text chunks, as the loop accumulates them. -/
def joinTexts : List String → String
  | [] => ""
  | t :: ts => t ++ joinTexts ts

/-- Whether the LLM stream ends in an `Err` outcome (before any `Stop`). -/
def streamErrored : List LLMChunk → Bool
  | [] => false
  | LLMChunk.stop :: _ => false
  | LLMChunk.err :: _ => true
  | LLMChunk.text _ :: cks => streamErrored cks
  | LLMChunk.functions :: cks => streamErrored cks

/-- A chat session with no prompts and no messages. -/
def emptyChat : ChatSession := ⟨[], []⟩

/-- A fresh session with the default (all-unset) config, as after connect. -/
def testSession : RealtimeSession := ⟨emptyChat, 0, SessionConfig.default, [], false⟩

/-- TTS oracle returning no frames. -/
def noTTS : Nat → List (List Nat) := fun _ => []

/-- A session holding two buffered audio bytes, otherwise fresh. -/
def audioSession : RealtimeSession := { testSession with input_audio_buffer := [1, 2] }

/-- A config with only `instructions` set. -/
def prevConfig : SessionConfig :=
  { SessionConfig.default with instructions := some "Be brief." }

/-- A session whose config has `instructions` set. -/
def configuredSession : RealtimeSession := { testSession with config := prevConfig }

/-- A chat session with one system prompt and no messages. -/
def sysPromptChat : ChatSession := ⟨[⟨Role.system, "orig", none, none⟩], []⟩

/-- A session carrying `sysPromptChat`. -/
def sysSession : RealtimeSession := { testSession with chat_session := sysPromptChat }

/-- A system-role message item with one text part. -/
def sysItem : ConversationItem :=
  ⟨none, none, "message", none, some "system", some [ContentPart.text "hello"],
   none, none, none, none⟩

/-- Helper: `sendFrames` never decreases the id counter. -/
theorem sendFrames_counter (response_id : Nat) (item_id : Option Nat) :
    ∀ fs g, g ≤ (sendFrames response_id item_id fs g).2
  | [], g => by simp [sendFrames]
  | f :: fs, g => by
    have ih := sendFrames_counter response_id item_id fs (g + 1)
    exact le_trans (Nat.le_succ g) ih

/-- Helper: `sendFrames` emits only `response.audio.delta` events, all carrying
its `item_id`. -/
theorem sendFrames_projections (response_id : Nat) (item_id : Option Nat) :
    ∀ fs g,
      textItemIds (sendFrames response_id item_id fs g).1 = [] ∧
      outputItemIds (sendFrames response_id item_id fs g).1 = [] ∧
      textDoneTexts (sendFrames response_id item_id fs g).1 = [] ∧
      partItemIds (sendFrames response_id item_id fs g).1
        = List.replicate fs.length (item_id.getD 0)
  | [], g => by
    simp [sendFrames, textItemIds, outputItemIds, textDoneTexts, partItemIds]
  | f :: fs, g => by
    have ih := sendFrames_projections response_id item_id fs (g + 1)
    simp only [sendFrames, mint, textItemIds, outputItemIds, textDoneTexts, partItemIds,
      List.filterMap_cons, List.length_cons, List.replicate_succ] at ih ⊢
    exact ⟨ih.1, ih.2.1, ih.2.2.1, by rw [ih.2.2.2]⟩

/-- Helper: the audio deltas of `sendFrames` have content index 1 and carry
the given frames. -/
theorem sendFrames_shapes (response_id : Nat) (item_id : Option Nat) :
    ∀ fs g, ((sendFrames response_id item_id fs g).1).map audioDeltaShape
      = fs.map fun f => (1, f.length)
  | [], g => by simp [sendFrames]
  | f :: fs, g => by
    have ih := sendFrames_shapes response_id item_id fs (g + 1)
    simp only [sendFrames, mint, List.map_cons, audioDeltaShape] at ih ⊢
    rw [ih]

/-- Helper: the LLM loop emits no `response.text.done` event. -/
theorem llmLoop_textDoneTexts (sga : Bool) (response_id iid : Nat)
    (ttsfr : Nat → List (List Nat)) :
    ∀ cks n acc hv g,
      textDoneTexts (llmLoop sga response_id iid ttsfr cks n acc hv g).1 = [] := by
  intro cks
  induction cks with
  | nil => intro n acc hv g; simp [llmLoop, textDoneTexts]
  | cons c cks ih =>
    intro n acc hv g
    cases c with
    | stop => simp [llmLoop, textDoneTexts]
    | err => simp [llmLoop, textDoneTexts]
    | functions => simpa [llmLoop] using ih n acc hv g
    | text t =>
      cases sga with
      | false =>
        simp only [llmLoop, mint, Bool.false_eq_true, if_false, textDoneTexts,
          List.filterMap_cons, List.filterMap_append]
        simpa [textDoneTexts] using ih (n + 1) (acc ++ t) (hv || validText t) (g + 1 + 1)
      | true =>
        simp only [llmLoop, mint, if_true, textDoneTexts, List.filterMap_cons,
          List.filterMap_append]
        have h1 := (sendFrames_projections response_id (some iid) (ttsfr n) (g + 1 + 1)).2.2.1
        have h2 := ih (n + 1) (acc ++ t)
          (hv || validText t)
          (sendFrames response_id (some iid) (ttsfr n) (g + 1 + 1)).2
        simp only [textDoneTexts] at h1 h2
        simp [h1, h2]

/-- Helper: the final text and validity flag of the LLM loop, by whether the
stream errored. -/
theorem llmLoop_result (sga : Bool) (response_id iid : Nat)
    (ttsfr : Nat → List (List Nat)) :
    ∀ cks n acc hv g,
      (streamErrored cks = true →
        (llmLoop sga response_id iid ttsfr cks n acc hv g).2.1 = STANDARD_ERROR_RESPONSE ∧
        (llmLoop sga response_id iid ttsfr cks n acc hv g).2.2.1 = true) ∧
      (streamErrored cks = false →
        (llmLoop sga response_id iid ttsfr cks n acc hv g).2.1
          = acc ++ joinTexts (streamTexts cks) ∧
        (llmLoop sga response_id iid ttsfr cks n acc hv g).2.2.1
          = (hv || (streamTexts cks).any validText)) := by
  intro cks
  induction cks with
  | nil =>
    intro n acc hv g
    exact ⟨fun h => by simp [streamErrored] at h,
           fun h => by simp [llmLoop, streamTexts, joinTexts]⟩
  | cons c cks ih =>
    intro n acc hv g
    cases c with
    | stop =>
      exact ⟨fun h => by simp [streamErrored] at h,
             fun h => by simp [llmLoop, streamTexts, joinTexts]⟩
    | err =>
      exact ⟨fun h => by simp [llmLoop], fun h => by simp [streamErrored] at h⟩
    | functions =>
      refine ⟨fun h => ?_, fun h => ?_⟩
      · simpa [llmLoop] using (ih n acc hv g).1 (by simpa [streamErrored] using h)
      · simpa [llmLoop, streamTexts] using (ih n acc hv g).2 (by simpa [streamErrored] using h)
    | text t =>
      cases sga with
      | false =>
        refine ⟨fun h => ?_, fun h => ?_⟩
        · have hh := (ih (n + 1) (acc ++ t) (hv || validText t) (g + 1 + 1)).1
            (by simpa [streamErrored] using h)
          simpa [llmLoop, mint] using hh
        · have hh := (ih (n + 1) (acc ++ t) (hv || validText t) (g + 1 + 1)).2
            (by simpa [streamErrored] using h)
          simp only [llmLoop, mint, Bool.false_eq_true, if_false]
          simp only [streamTexts, joinTexts, List.any_cons]
          constructor
          · simpa [String.append_assoc] using hh.1
          · simpa [Bool.or_assoc] using hh.2
      | true =>
        refine ⟨fun h => ?_, fun h => ?_⟩
        · have hh := (ih (n + 1) (acc ++ t) (hv || validText t)
              (sendFrames response_id (some iid) (ttsfr n) (g + 1 + 1)).2).1
            (by simpa [streamErrored] using h)
          simpa [llmLoop, mint] using hh
        · have hh := (ih (n + 1) (acc ++ t) (hv || validText t)
              (sendFrames response_id (some iid) (ttsfr n) (g + 1 + 1)).2).2
            (by simpa [streamErrored] using h)
          simp only [llmLoop, mint, if_true]
          simp only [streamTexts, joinTexts, List.any_cons]
          constructor
          · simpa [String.append_assoc] using hh.1
          · simpa [Bool.or_assoc] using hh.2

/-- Helper: with the audio modality off, the LLM loop emits no audio-related
event. -/
theorem llmLoop_no_audio (response_id iid : Nat) (ttsfr : Nat → List (List Nat)) :
    ∀ cks n acc hv g,
      ∀ e ∈ (llmLoop false response_id iid ttsfr cks n acc hv g).1,
        isAudioRelatedEvent e = false := by
  intro cks
  induction cks with
  | nil => intro n acc hv g; simp [llmLoop]
  | cons c cks ih =>
    intro n acc hv g
    cases c with
    | stop => simp [llmLoop]
    | err => simp [llmLoop]
    | functions => simpa [llmLoop] using ih n acc hv g
    | text t =>
      intro e he
      simp only [llmLoop, mint, Bool.false_eq_true, if_false, List.singleton_append,
        List.mem_cons] at he
      rcases he with he | he
      · simp [he, isAudioRelatedEvent]
      · exact ih (n + 1) (acc ++ t) (hv || validText t) (g + 1 + 1) e he

/-- Helper: id discipline inside the LLM loop: the counter never decreases,
every `response.text.delta` item id is fresh (within the counter range,
strictly increasing), every content-part or audio item id equals `iid`, and no
output-item event is emitted. -/
theorem llmLoop_ids (sga : Bool) (response_id iid : Nat) (ttsfr : Nat → List (List Nat)) :
    ∀ cks n acc hv g,
      g ≤ (llmLoop sga response_id iid ttsfr cks n acc hv g).2.2.2 ∧
      (∀ x ∈ textItemIds (llmLoop sga response_id iid ttsfr cks n acc hv g).1,
        g ≤ x ∧ x < (llmLoop sga response_id iid ttsfr cks n acc hv g).2.2.2) ∧
      (textItemIds (llmLoop sga response_id iid ttsfr cks n acc hv g).1).Pairwise (· < ·) ∧
      (∃ k, partItemIds (llmLoop sga response_id iid ttsfr cks n acc hv g).1
        = List.replicate k iid) ∧
      outputItemIds (llmLoop sga response_id iid ttsfr cks n acc hv g).1 = [] := by
  intro cks
  induction cks with
  | nil =>
    intro n acc hv g
    simp [llmLoop, textItemIds, partItemIds, outputItemIds]
  | cons c cks ih =>
    intro n acc hv g
    cases c with
    | stop => simp [llmLoop, textItemIds, partItemIds, outputItemIds]
    | err => simp [llmLoop, textItemIds, partItemIds, outputItemIds]
    | functions => simpa [llmLoop] using ih n acc hv g
    | text t =>
      cases sga with
      | false =>
        have IH := ih (n + 1) (acc ++ t) (hv || validText t) (g + 1 + 1)
        simp only [llmLoop, mint, Bool.false_eq_true, if_false, List.singleton_append,
          textItemIds, partItemIds, outputItemIds, List.filterMap_cons] at IH ⊢
        obtain ⟨hc, hb, hp, ⟨k, hk⟩, ho⟩ := IH
        refine ⟨by omega, ?_, ?_, ⟨k, hk⟩, ho⟩
        · intro x hx
          simp only [List.mem_cons] at hx
          rcases hx with hx | hx
          · subst hx; constructor <;> [omega; omega]
          · have := hb x hx; omega
        · rw [List.pairwise_cons]
          exact ⟨fun b hb2 => by have := hb b hb2; omega, hp⟩
      | true =>
        have hsc := sendFrames_counter response_id (some iid) (ttsfr n) (g + 1 + 1)
        have hsp := sendFrames_projections response_id (some iid) (ttsfr n) (g + 1 + 1)
        have IH := ih (n + 1) (acc ++ t) (hv || validText t)
          (sendFrames response_id (some iid) (ttsfr n) (g + 1 + 1)).2
        simp only [llmLoop, mint, if_true, List.cons_append, textItemIds, partItemIds,
          outputItemIds, List.filterMap_cons, List.filterMap_append] at IH hsp ⊢
        obtain ⟨hc, hb, hp, ⟨k, hk⟩, ho⟩ := IH
        obtain ⟨hs1, hs2, _, hs4⟩ := hsp
        refine ⟨by omega, ?_, ?_, ?_, ?_⟩
        · intro x hx
          simp only [hs1, List.nil_append, List.mem_cons] at hx
          rcases hx with hx | hx
          · subst hx; constructor <;> omega
          · have := hb x hx; omega
        · rw [hs1]
          simp only [List.nil_append]
          rw [List.pairwise_cons]
          exact ⟨fun b hb2 => by have := hb b hb2; omega, hp⟩
        · refine ⟨(ttsfr n).length + k, ?_⟩
          rw [hs4, hk, List.replicate_add]
          simp
        · rw [hs2, ho]
          simp

/-- C9: the commit operation swaps the input audio buffer out before any check
or fallible call, so in every outcome — empty commit, VAD silence, VAD or ASR
error, full success — the session's input audio buffer is empty afterwards. -/
theorem C9_commit_always_clears_buffer (s : RealtimeSession) (item_id? : Option Nat)
    (vad_url : Option String) (vadOut : Except Unit (List (Nat × Nat)))
    (asrOut : Except Unit (List String)) (g : Nat) :
    (handle_audio_buffer_commit s item_id? vad_url vadOut asrOut g).session.input_audio_buffer
      = [] := by
  unfold handle_audio_buffer_commit commit_asr_stage
  cases item_id? <;> cases vad_url <;> cases vadOut <;> cases asrOut <;>
    simp [mint, add_user_message] <;> split_ifs <;> rfl

/-- C8: `input_audio_buffer.commit` on an empty buffer is a no-op: no outbound
event, no state change, and the response pipeline is not started. -/
theorem C8_empty_commit_is_noop (s : RealtimeSession) (vad_url : Option String)
    (vadOut : Except Unit (List (Nat × Nat))) (asrOut : Except Unit (List String))
    (llm : Option (List LLMChunk)) (ttsfr : Nat → List (List Nat)) (g : Nat)
    (h : s.input_audio_buffer = []) :
    (handle_commit_message s vad_url vadOut asrOut llm ttsfr g).1 = [] ∧
    (handle_commit_message s vad_url vadOut asrOut llm ttsfr g).2.1 = s ∧
    (handle_commit_message s vad_url vadOut asrOut llm ttsfr g).2.2.2 = Except.ok () := by
  have hs : { s with input_audio_buffer := ([] : List Nat) } = s := by
    cases s
    simp_all
  unfold handle_commit_message handle_audio_buffer_commit
  simp [h, mint, hs]

/-- C8 witness: the no-op commit at a concrete fresh session. -/
theorem C8_empty_commit_is_noop_witness :
    testSession.input_audio_buffer = [] ∧
    (handle_commit_message testSession none (Except.ok []) (Except.ok []) none noTTS 0).1
      = [] :=
  ⟨rfl,
   (C8_empty_commit_is_noop testSession none (Except.ok []) (Except.ok []) none noTTS 0 rfl).1⟩

/-- C2 (code-bug evidence): when the initial LLM call
(`chat_session.complete()`) fails, `generate_response` returns the error by
`?` after having emitted `response.created`, so the operation finishes with
`is_generating` still true and no `response.done` emitted — contradicting the
claimed guarantee. -/
theorem C2_llm_call_failure_violates_guarantee :
    (generate_response testSession none noTTS 0).ok = false ∧
    (generate_response testSession none noTTS 0).session.is_generating = true ∧
    (∃ e ∈ (generate_response testSession none noTTS 0).events, isResponseCreated e = true) ∧
    (∀ e ∈ (generate_response testSession none noTTS 0).events, isResponseDone e = false) := by
  decide

/-- C4 counterexample: a commit of a non-empty buffer whose ASR call fails
emits `input_audio_buffer.committed` and then no transcription event at all. -/
theorem C4_asr_error_counterexample :
    (handle_audio_buffer_commit audioSession none none (Except.ok []) (Except.error ()) 0).events
        = [ServerEvent.inputAudioBufferCommitted 1 none 0] ∧
    transcriptIds
        (handle_audio_buffer_commit audioSession none none (Except.ok [])
          (Except.error ()) 0).events
      = [] := by
  decide

/-- C4 (amended): whenever the VAD and ASR calls succeed, a commit of a
non-empty buffer emits exactly one `input_audio_buffer.committed`, followed by
exactly one `conversation.item.input_audio_transcription.completed` with the
same `item_id`. -/
theorem C4_commit_success_event_discipline (s : RealtimeSession) (vad_url : Option String)
    (vadTs : List (Nat × Nat)) (texts : List String) (g : Nat)
    (hbuf : s.input_audio_buffer ≠ []) :
    (handle_audio_buffer_commit s none vad_url (Except.ok vadTs) (Except.ok texts) g).events.head?
        = some (ServerEvent.inputAudioBufferCommitted (g + 1) none g) ∧
    committedIds
        (handle_audio_buffer_commit s none vad_url (Except.ok vadTs) (Except.ok texts) g).events
      = [g] ∧
    transcriptIds
        (handle_audio_buffer_commit s none vad_url (Except.ok vadTs) (Except.ok texts) g).events
      = [g] := by
  have hne : s.input_audio_buffer.isEmpty = false := by
    cases hh : s.input_audio_buffer <;> simp_all
  unfold handle_audio_buffer_commit commit_asr_stage
  cases vad_url with
  | none =>
    refine ⟨?_, ?_, ?_⟩ <;> simp [mint, hne, committedIds, transcriptIds]
  | some u =>
    by_cases hv : vadTs.isEmpty <;>
      refine ⟨?_, ?_, ?_⟩ <;> simp [mint, hne, hv, committedIds, transcriptIds]

/-- C4 witness: the amended discipline at a concrete commit. -/
theorem C4_commit_success_event_discipline_witness :
    audioSession.input_audio_buffer ≠ [] ∧
    committedIds
        (handle_audio_buffer_commit audioSession none none (Except.ok [])
          (Except.ok ["hi"]) 0).events
      = [0] ∧
    transcriptIds
        (handle_audio_buffer_commit audioSession none none (Except.ok [])
          (Except.ok ["hi"]) 0).events
      = [0] :=
  ⟨by decide,
   (C4_commit_success_event_discipline audioSession none [] ["hi"] 0 (by decide)).2.1,
   (C4_commit_success_event_discipline audioSession none [] ["hi"] 0 (by decide)).2.2⟩

/-- C3 counterexample: a valid `session.update` whose partial config leaves
`instructions` unset wipes the previously set `instructions` instead of
keeping it — the update replaces the config rather than merging into it. -/
theorem C3_update_does_not_merge_counterexample :
    configuredSession.config.instructions = some "Be brief." ∧
    SessionConfig.default.instructions = none ∧
    (∃ e ∈ (handle_session_update configuredSession SessionConfig.default "m" "v" 0).1,
      isSessionUpdatedEvent e = true) ∧
    (handle_session_update configuredSession SessionConfig.default "m" "v" 0).2.1.config.instructions
      = none := by
  decide

/-- C3 (amended): a valid `session.update` (formats Pcm16 or absent, turn
detection not server_vad) replaces the whole `SessionConfig` with the supplied
partial config — fields absent from the update become unset — and emits
exactly one `session.updated`. -/
theorem C3_update_replaces_whole_config (s : RealtimeSession) (cfg : SessionConfig)
    (llm_model tts_voice : String) (g : Nat)
    (hin : ∀ f, cfg.input_audio_format = some f → f = AudioFormat.pcm16)
    (hout : ∀ f, cfg.output_audio_format = some f → f = AudioFormat.pcm16)
    (htd : ∀ td, cfg.turn_detection = some td → td.turn_type ≠ TurnDetectionType.serverVad) :
    (handle_session_update s cfg llm_model tts_voice g).2.1 = { s with config := cfg } ∧
    ((handle_session_update s cfg llm_model tts_voice g).1).map isSessionUpdatedEvent
      = [true] := by
  have h1 : (cfg.input_audio_format.map fun f => f != AudioFormat.pcm16).getD false = false := by
    cases hf : cfg.input_audio_format with
    | none => rfl
    | some f => simp [hin f hf]
  have h2 : (cfg.output_audio_format.map fun f => f != AudioFormat.pcm16).getD false = false := by
    cases hf : cfg.output_audio_format with
    | none => rfl
    | some f => simp [hout f hf]
  have h3 : (cfg.turn_detection.map fun td =>
      td.turn_type == TurnDetectionType.serverVad).getD false = false := by
    cases hf : cfg.turn_detection with
    | none => rfl
    | some td => simp [htd td hf]
  constructor <;> simp [handle_session_update, h1, h2, h3, mint, isSessionUpdatedEvent]

/-- C3 witness: the wholesale replacement at a concrete valid update. -/
theorem C3_update_replaces_whole_config_witness :
    (handle_session_update configuredSession SessionConfig.default "m" "v" 0).2.1
      = { configuredSession with config := SessionConfig.default } :=
  (C3_update_replaces_whole_config configuredSession SessionConfig.default "m" "v" 0
    (fun f h => by cases h) (fun f h => by cases h) (fun td h => by cases h)).1

/-- C5 counterexample: a system-role message item appends nothing to the chat
history — it overwrites the first system prompt's text instead. -/
theorem C5_system_item_counterexample :
    sysSession.chat_session.messages = [] ∧
    (handle_item_create sysSession none sysItem 0).2.1.chat_session.messages = [] ∧
    (handle_item_create sysSession none sysItem 0).2.1.chat_session.system_prompts
      = [⟨Role.system, "hello", none, none⟩] ∧
    (handle_item_create sysSession none sysItem 0).1
      = [ServerEvent.conversationItemCreated 0 none sysItem] := by
  decide

/-- C5 (amended): `conversation.item.create` echoes the inbound item unchanged
in `conversation.item.created`; a user or assistant message item appends a
role-tagged message whose text is the single-space join of the parts carrying
text or transcripts; a system message item appends nothing and instead
overwrites the first system prompt's text; a `function_call` item with
arguments appends an assistant message with a single tool call; a
`function_call_output` item with output appends a tool message. -/
theorem C5_item_create_effect (s : RealtimeSession) (prev : Option Nat)
    (item : ConversationItem) (g : Nat) :
    (handle_item_create s prev item g).1
        = [ServerEvent.conversationItemCreated g prev item] ∧
    (∀ c, item.item_type = "message" → item.role = some "user" → item.content = some c →
      (handle_item_create s prev item g).2.1.chat_session.messages
        = s.chat_session.messages
          ++ [⟨Role.user, extract_text_from_content c, none, none⟩]) ∧
    (∀ c, item.item_type = "message" → item.role = some "assistant" → item.content = some c →
      (handle_item_create s prev item g).2.1.chat_session.messages
        = s.chat_session.messages
          ++ [⟨Role.assistant, extract_text_from_content c, none, none⟩]) ∧
    (∀ c, item.item_type = "message" → item.role = some "system" → item.content = some c →
      (handle_item_create s prev item g).2.1.chat_session.messages
          = s.chat_session.messages ∧
      (handle_item_create s prev item g).2.1.chat_session.system_prompts
        = (set_first_system_prompt s.chat_session (extract_text_from_content c)).system_prompts) ∧
    (∀ args, item.item_type = "function_call" → item.arguments = some args →
      (handle_item_create s prev item g).2.1.chat_session.messages
        = s.chat_session.messages
          ++ [⟨Role.assistant, "",
               some [⟨item.id.getD 0, "function", ⟨item.name.getD "", args⟩⟩], none⟩]) ∧
    (∀ out, item.item_type = "function_call_output" → item.output = some out →
      (handle_item_create s prev item g).2.1.chat_session.messages
        = s.chat_session.messages ++ [⟨Role.tool, out, none, item.id⟩]) := by
  refine ⟨by simp [handle_item_create, mint], ?_, ?_, ?_, ?_, ?_⟩
  · intro c h1 h2 h3
    simp [handle_item_create, h1, h2, h3, mint, add_user_message]
  · intro c h1 h2 h3
    simp [handle_item_create, h1, h2, h3, mint, add_assistant_message]
  · intro c h1 h2 h3
    constructor <;>
      simp [handle_item_create, h1, h2, h3, mint, set_first_system_prompt]
    cases s.chat_session.system_prompts <;> simp
  · intro args h1 h2
    simp [handle_item_create, h1, h2, mint]
  · intro out h1 h2
    simp [handle_item_create, h1, h2, mint]

/-- C5 witness: the user-message conjunct at a concrete item. -/
theorem C5_item_create_effect_witness :
    (handle_item_create testSession none
        ⟨none, none, "message", none, some "user", some [ContentPart.text "hi"],
         none, none, none, none⟩ 0).2.1.chat_session.messages
      = testSession.chat_session.messages
        ++ [⟨Role.user, extract_text_from_content [ContentPart.text "hi"], none, none⟩] :=
  (C5_item_create_effect testSession none
      ⟨none, none, "message", none, some "user", some [ContentPart.text "hi"],
       none, none, none, none⟩ 0).2.1 [ContentPart.text "hi"] rfl rfl rfl

/-- Helper: the post-loop check of `generate_response` replaces the loop text
by the standard error response whenever no chunk was valid, the accumulation
trims to empty, or the stream errored. -/
theorem llmLoop_final_text (sga : Bool) (response_id iid : Nat)
    (ttsfr : Nat → List (List Nat)) (cks : List LLMChunk) (G : Nat)
    (hcond : (∀ t ∈ streamTexts cks, validText t = false) ∨
      (rustTrim (joinTexts (streamTexts cks))).isEmpty = true ∨
      streamErrored cks = true) :
    (if !(llmLoop sga response_id iid ttsfr cks 0 "" false G).2.2.1
        || (rustTrim (llmLoop sga response_id iid ttsfr cks 0 "" false G).2.1).isEmpty
      then STANDARD_ERROR_RESPONSE
      else (llmLoop sga response_id iid ttsfr cks 0 "" false G).2.1)
      = STANDARD_ERROR_RESPONSE := by
  have hstd : (rustTrim STANDARD_ERROR_RESPONSE).isEmpty = false := by decide
  by_cases herr : streamErrored cks = true
  · obtain ⟨h1, h2⟩ := (llmLoop_result sga response_id iid ttsfr cks 0 "" false G).1 herr
    rw [h1, h2, hstd]
    simp
  · have herr' : streamErrored cks = false := by simpa using herr
    obtain ⟨h1, h2⟩ := (llmLoop_result sga response_id iid ttsfr cks 0 "" false G).2 herr'
    rcases hcond with hA | hB | hC
    · have hany : (streamTexts cks).any validText = false := by
        rw [List.any_eq_false]
        intro t ht
        simp [hA t ht]
      rw [h1, h2, hany]
      simp
    · rw [h1, h2]
      have hj : ("" ++ joinTexts (streamTexts cks)) = joinTexts (streamTexts cks) := by simp
      rw [hj, hB]
      simp
    · exact absurd hC herr

/-- C6: when no LLM chunk carried valid text, or the accumulated response
trims to empty, or the stream yielded an error, the text in
`response.text.done` is the standard error response, and that same text is
appended to history as the assistant message. -/
theorem C6_fallback_text (s : RealtimeSession) (cks : List LLMChunk)
    (ttsfr : Nat → List (List Nat)) (g : Nat)
    (hlast : lastIsAssistant s.chat_session = false)
    (hgen : s.is_generating = false)
    (hcond : (∀ t ∈ streamTexts cks, validText t = false) ∨
      (rustTrim (joinTexts (streamTexts cks))).isEmpty = true ∨
      streamErrored cks = true) :
    textDoneTexts (generate_response s (some cks) ttsfr g).events
      = [STANDARD_ERROR_RESPONSE] ∧
    (generate_response s (some cks) ttsfr g).session.chat_session.messages
      = s.chat_session.messages
        ++ [⟨Role.assistant, STANDARD_ERROR_RESPONSE, none, none⟩] := by
  unfold generate_response
  rw [hlast, hgen]
  by_cases hsga : (s.config.modalities.map fun m => m.contains Modality.audio).getD false = true
  · simp only [Bool.false_eq_true, if_false, mint, hsga, if_true]
    have hLd := llmLoop_textDoneTexts true g (g + 1 + 1) ttsfr cks 0 "" false
      (g + 1 + 1 + 1 + 1 + 1 + 1)
    have hfin := llmLoop_final_text true g (g + 1 + 1) ttsfr cks
      (g + 1 + 1 + 1 + 1 + 1 + 1) hcond
    constructor
    · simp only [textDoneTexts, List.filterMap_append, List.filterMap_cons]
      simp only [textDoneTexts] at hLd
      simp only [hfin]
      simp [hLd]
    · simp only [hfin]
      simp [add_assistant_message]
  · simp only [Bool.false_eq_true, if_false, mint, hsga]
    have hLd := llmLoop_textDoneTexts false g (g + 1 + 1) ttsfr cks 0 "" false
      (g + 1 + 1 + 1 + 1 + 1)
    have hfin := llmLoop_final_text false g (g + 1 + 1) ttsfr cks
      (g + 1 + 1 + 1 + 1 + 1) hcond
    constructor
    · simp only [textDoneTexts, List.filterMap_append, List.filterMap_cons]
      simp only [textDoneTexts] at hLd
      simp only [hfin]
      simp [hLd]
    · simp only [hfin]
      simp [add_assistant_message]

/-- C6 witness: the fallback at a concrete erroring stream. -/
theorem C6_fallback_text_witness :
    lastIsAssistant testSession.chat_session = false ∧
    testSession.is_generating = false ∧
    streamErrored [LLMChunk.err] = true ∧
    textDoneTexts (generate_response testSession (some [LLMChunk.err]) noTTS 0).events
      = [STANDARD_ERROR_RESPONSE] :=
  ⟨rfl, rfl, rfl,
   (C6_fallback_text testSession [LLMChunk.err] noTTS 0 rfl rfl (Or.inr (Or.inr rfl))).1⟩

/-- C10: if `modalities` was never set, response generation emits no audio
event at all — no content-index-1 content part, no `response.audio.delta`, no
`response.audio.done` — even though the initial `session.created` advertises
both Text and Audio modalities. -/
theorem C10_no_audio_events_when_modalities_unset (s : RealtimeSession)
    (llm : Option (List LLMChunk)) (ttsfr : Nat → List (List Nat)) (g : Nat)
    (h : s.config.modalities = none) :
    (initial_session 0).modalities = [Modality.text, Modality.audio] ∧
    ∀ e ∈ (generate_response s llm ttsfr g).events, isAudioRelatedEvent e = false := by
  refine ⟨rfl, ?_⟩
  unfold generate_response
  by_cases hlast : lastIsAssistant s.chat_session
  · simp [hlast]
  · rw [show lastIsAssistant s.chat_session = false by simpa using hlast]
    by_cases hgen : s.is_generating
    · simp [hgen]
    · rw [show s.is_generating = false by simpa using hgen]
      simp only [h, Option.map_none', Option.getD_none, Bool.false_eq_true, if_false, mint]
      have hL := llmLoop_no_audio g (g + 1 + 1) ttsfr
      cases llm with
      | none =>
        intro e he
        simp only [List.mem_cons, List.not_mem_nil, or_false] at he
        rcases he with rfl | rfl | rfl <;> rfl
      | some cks =>
        intro e he
        simp only [List.mem_cons, List.mem_append, List.mem_singleton,
          List.not_mem_nil, or_false, false_or, or_assoc] at he
        rcases he with rfl | rfl | rfl | he | rfl | rfl | rfl | rfl
        · rfl
        · rfl
        · rfl
        · exact hL cks 0 "" false (g + 1 + 1 + 1 + 1 + 1) e he
        · rfl
        · rfl
        · rfl
        · rfl

/-- C10 witness: a concrete generation with modalities unset. -/
theorem C10_no_audio_events_when_modalities_unset_witness :
    testSession.config.modalities = none ∧
    ∀ e ∈ (generate_response testSession (some [LLMChunk.text "hi", LLMChunk.stop])
        noTTS 0).events, isAudioRelatedEvent e = false :=
  ⟨rfl,
   (C10_no_audio_events_when_modalities_unset testSession
     (some [LLMChunk.text "hi", LLMChunk.stop]) noTTS 0 rfl).2⟩

/-- C7: within one response turn, the `item_id` of every `response.text.delta`
and `response.text.done` is minted fresh per event (pairwise distinct and
never equal to the output item's id), while every `response.output_item.*`,
`response.content_part.*`, `response.audio.done` and `response.audio.delta`
carries the single id minted once for the assistant output item. -/
theorem C7_item_id_discipline (s : RealtimeSession) (llm : Option (List LLMChunk))
    (ttsfr : Nat → List (List Nat)) (g : Nat) :
    ∃ iid,
      (∀ x ∈ partItemIds (generate_response s llm ttsfr g).events, x = iid) ∧
      (∀ y ∈ outputItemIds (generate_response s llm ttsfr g).events, y = some iid) ∧
      (textItemIds (generate_response s llm ttsfr g).events).Pairwise (fun a b => a ≠ b) ∧
      (∀ x ∈ textItemIds (generate_response s llm ttsfr g).events, x ≠ iid) := by
  unfold generate_response
  by_cases hlast : lastIsAssistant s.chat_session
  · refine ⟨0, ?_, ?_, ?_, ?_⟩ <;> simp [hlast, textItemIds, partItemIds, outputItemIds]
  · rw [show lastIsAssistant s.chat_session = false by simpa using hlast]
    by_cases hgen : s.is_generating
    · refine ⟨0, ?_, ?_, ?_, ?_⟩ <;> simp [hgen, textItemIds, partItemIds, outputItemIds]
    · rw [show s.is_generating = false by simpa using hgen]
      simp only [Bool.false_eq_true, if_false, mint]
      refine ⟨g + 1 + 1, ?_⟩
      by_cases hsga :
          (s.config.modalities.map fun m => m.contains Modality.audio).getD false = true
      · simp only [hsga, if_true]
        cases llm with
        | none =>
          refine ⟨?_, ?_, ?_, ?_⟩ <;>
            simp [textItemIds, partItemIds, outputItemIds]
        | some cks =>
          obtain ⟨hc, hb, hp, ⟨k, hk⟩, ho⟩ :=
            llmLoop_ids true g (g + 1 + 1) ttsfr cks 0 "" false (g + 1 + 1 + 1 + 1 + 1 + 1)
          simp only [partItemIds] at hk
          simp only [outputItemIds] at ho
          refine ⟨?_, ?_, ?_, ?_⟩
          · intro x hx
            simp only [partItemIds, List.filterMap_cons, List.filterMap_append,
              List.filterMap_nil, List.mem_cons, List.mem_append, List.not_mem_nil,
              or_false, false_or, or_assoc] at hx
            rcases hx with rfl | rfl | hx | rfl | rfl | rfl
            · rfl
            · rfl
            · rw [hk] at hx
              exact List.eq_of_mem_replicate hx
            · rfl
            · rfl
            · rfl
          · intro y hy
            simp only [outputItemIds, List.filterMap_cons, List.filterMap_append,
              List.filterMap_nil, List.mem_cons, List.mem_append, List.not_mem_nil,
              or_false, false_or, or_assoc, ho] at hy
            rcases hy with rfl | rfl
            · rfl
            · rfl
          · simp only [textItemIds, List.filterMap_cons, List.filterMap_append,
              List.filterMap_nil, List.nil_append, List.append_nil]
            simp only [textItemIds] at hb hp
            rw [List.pairwise_append]
            refine ⟨hp.imp (fun h => Nat.ne_of_lt h), by simp, ?_⟩
            intro a ha b hbmem
            simp only [List.mem_cons, List.not_mem_nil, or_false] at hbmem
            subst hbmem
            have := (hb a ha).2
            omega
          · intro x hx
            simp only [textItemIds, List.filterMap_cons, List.filterMap_append,
              List.filterMap_nil, List.nil_append, List.append_nil, List.mem_append,
              List.mem_cons, List.not_mem_nil, or_false] at hx
            simp only [textItemIds] at hb
            rcases hx with hx | hx
            · have := (hb x hx).1
              omega
            · subst hx
              omega
      · rw [show (s.config.modalities.map fun m => m.contains Modality.audio).getD false
            = false by simpa using hsga]
        simp only [Bool.false_eq_true, if_false]
        cases llm with
        | none =>
          refine ⟨?_, ?_, ?_, ?_⟩ <;>
            simp [textItemIds, partItemIds, outputItemIds]
        | some cks =>
          obtain ⟨hc, hb, hp, ⟨k, hk⟩, ho⟩ :=
            llmLoop_ids false g (g + 1 + 1) ttsfr cks 0 "" false (g + 1 + 1 + 1 + 1 + 1)
          simp only [partItemIds] at hk
          simp only [outputItemIds] at ho
          refine ⟨?_, ?_, ?_, ?_⟩
          · intro x hx
            simp only [partItemIds, List.filterMap_cons, List.filterMap_append,
              List.filterMap_nil, List.mem_cons, List.mem_append, List.not_mem_nil,
              or_false, false_or, or_assoc, List.nil_append] at hx
            rcases hx with rfl | hx | rfl
            · rfl
            · rw [hk] at hx
              exact List.eq_of_mem_replicate hx
            · rfl
          · intro y hy
            simp only [outputItemIds, List.filterMap_cons, List.filterMap_append,
              List.filterMap_nil, List.mem_cons, List.mem_append, List.not_mem_nil,
              or_false, false_or, or_assoc, ho, List.nil_append] at hy
            rcases hy with rfl | rfl
            · rfl
            · rfl
          · simp only [textItemIds, List.filterMap_cons, List.filterMap_append,
              List.filterMap_nil, List.nil_append, List.append_nil]
            simp only [textItemIds] at hb hp
            rw [List.pairwise_append]
            refine ⟨hp.imp (fun h => Nat.ne_of_lt h), by simp, ?_⟩
            intro a ha b hbmem
            simp only [List.mem_cons, List.not_mem_nil, or_false] at hbmem
            subst hbmem
            have := (hb a ha).2
            omega
          · intro x hx
            simp only [textItemIds, List.filterMap_cons, List.filterMap_append,
              List.filterMap_nil, List.nil_append, List.append_nil, List.mem_append,
              List.mem_cons, List.not_mem_nil, or_false] at hx
            simp only [textItemIds] at hb
            rcases hx with hx | hx
            · have := (hb x hx).1
              omega
            · subst hx
              omega

/-- Helper: `chunksCanon` of the empty sequence. -/
theorem chunksCanon_nil : chunksCanon [] = [] := by
  rw [chunksCanon]
  rfl

/-- Helper: one unfolding of `chunksCanon` on a non-empty sequence. -/
theorem chunksCanon_eq (l : List Nat) (h : l ≠ []) :
    chunksCanon l = l.take readChunkSize :: chunksCanon (l.drop readChunkSize) := by
  rw [chunksCanon]
  simp [h]

/-- Helper: the inner chunking loop emits the full frames of its input and
leaves a residual shorter than one frame; relative to any continuation `t`,
the emitted frames prefix the greedy chunking of the whole input. -/
theorem chunkFrames_spec : ∀ (n : Nat) (c : List Nat), c.length ≤ n →
    ((chunkFrames c).2).length < readChunkSize ∧
    ∀ t, (chunkFrames c).1 ++ chunksCanon ((chunkFrames c).2 ++ t) = chunksCanon (c ++ t)
  | n, c, hle => by
    rw [chunkFrames]
    by_cases h : c.length < readChunkSize
    · simp only [h, if_true]
      exact ⟨trivial, fun t => rfl⟩
    · simp only [h, if_false]
      have hrcs : readChunkSize = 16000 := by decide
      have hrec := chunkFrames_spec (n - readChunkSize) (c.drop readChunkSize)
        (by simp only [List.length_drop]; omega)
      refine ⟨hrec.1, fun t => ?_⟩
      have hne : c ++ t ≠ [] := by
        intro hh
        rcases List.append_eq_nil.mp hh with ⟨h1, h2⟩
        rw [h1] at h
        simp at h
        omega
      rw [chunksCanon_eq (c ++ t) hne]
      have htake : (c ++ t).take readChunkSize = c.take readChunkSize := by
        rw [List.take_append_eq_append_take]
        have : readChunkSize - c.length = 0 := by omega
        rw [this]
        simp
      have hdrop : (c ++ t).drop readChunkSize = c.drop readChunkSize ++ t := by
        rw [List.drop_append_eq_append_drop]
        have : readChunkSize - c.length = 0 := by omega
        rw [this]
        simp
      rw [htake, hdrop, ← hrec.2 t]
      rfl
termination_by n c _ => n
decreasing_by
  omega

/-- Helper: one iteration of the stream loop emits the full frames now
available and keeps a residual of at most one frame; relative to any
continuation `t`, the emitted frames prefix the greedy chunking. -/
theorem processChunk_spec (rest chunk : List Nat) (hrest : rest.length ≤ readChunkSize) :
    ((processChunk rest chunk).2).length ≤ readChunkSize ∧
    ∀ t, (processChunk rest chunk).1 ++ chunksCanon ((processChunk rest chunk).2 ++ t)
      = chunksCanon (rest ++ chunk ++ t) := by
  have hrcs : readChunkSize = 16000 := by decide
  unfold processChunk
  by_cases h0 : rest.length > 0
  · simp only [h0, if_true]
    by_cases h1 : chunk.length + rest.length > readChunkSize
    · simp only [h1, if_true]
      obtain ⟨ha, hb⟩ := chunkFrames_spec
        (chunk.drop (readChunkSize - rest.length)).length
        (chunk.drop (readChunkSize - rest.length)) le_rfl
      refine ⟨le_of_lt ha, fun t => ?_⟩
      have hne : rest ++ chunk ++ t ≠ [] := by
        intro hh
        rcases List.append_eq_nil.mp hh with ⟨h2, h3⟩
        rcases List.append_eq_nil.mp h2 with ⟨h4, h5⟩
        rw [h4] at h0
        simp at h0
      rw [chunksCanon_eq (rest ++ chunk ++ t) hne]
      have hn : readChunkSize - rest.length ≤ chunk.length := by omega
      have htake : (rest ++ chunk ++ t).take readChunkSize
          = rest ++ chunk.take (readChunkSize - rest.length) := by
        rw [List.append_assoc, List.take_append_eq_append_take,
          List.take_of_length_le hrest, List.take_append_eq_append_take]
        have : readChunkSize - rest.length - chunk.length = 0 := by omega
        rw [this]
        simp
      have hdrop : (rest ++ chunk ++ t).drop readChunkSize
          = chunk.drop (readChunkSize - rest.length) ++ t := by
        rw [List.append_assoc, List.drop_append_eq_append_drop,
          List.drop_eq_nil_of_le hrest, List.drop_append_eq_append_drop]
        have : readChunkSize - rest.length - chunk.length = 0 := by omega
        rw [this]
        simp
      rw [htake, hdrop, ← hb t]
      rfl
    · simp only [h1, if_false]
      refine ⟨by simp only [List.length_append]; omega, fun t => ?_⟩
      simp [List.append_assoc]
  · simp only [h0, if_false]
    have hrest0 : rest = [] := by
      cases rest with
      | nil => rfl
      | cons a l => simp at h0
    subst hrest0
    obtain ⟨ha, hb⟩ := chunkFrames_spec chunk.length chunk le_rfl
    exact ⟨le_of_lt ha, fun t => by simpa using hb t⟩

/-- Helper: the full frame sequence of `send_stream_chunk` is the greedy
`readChunkSize`-byte chunking of the concatenated HTTP byte stream, with the
final short residual as last frame. -/
theorem streamFrames_spec : ∀ (cs : List (List Nat)) (rest : List Nat),
    rest.length ≤ readChunkSize →
    streamFrames rest cs = chunksCanon (rest ++ cs.flatten)
  | [], rest, h => by
    rw [streamFrames]
    by_cases h0 : rest.length > 0
    · simp only [h0, if_true]
      have hne : rest ++ List.flatten ([] : List (List Nat)) ≠ [] := by
        simp only [List.flatten_nil, List.append_nil]
        intro hh
        rw [hh] at h0
        simp at h0
      rw [chunksCanon_eq _ hne]
      simp only [List.flatten_nil, List.append_nil]
      rw [List.take_of_length_le h, List.drop_eq_nil_of_le h, chunksCanon_nil]
    · simp only [h0, if_false]
      have hrest0 : rest = [] := by
        cases rest with
        | nil => rfl
        | cons a l => simp at h0
      subst hrest0
      simp [chunksCanon_nil]
  | c :: cs, rest, h => by
    rw [streamFrames]
    obtain ⟨h1, h2⟩ := processChunk_spec rest c h
    rw [streamFrames_spec cs (processChunk rest c).2 h1]
    have h3 := h2 cs.flatten
    simp only [List.append_assoc] at h3 ⊢
    simp only [List.flatten_cons]
    exact h3

/-- Helper: shape of the audio deltas emitted by `send_stream_chunk`: one
delta per greedy 16000-byte frame of the concatenated body, all with content
index 1; a body of 10000 total bytes yields a single delta of 10000 bytes. -/
theorem send_stream_chunk_shape (cs : List (List Nat)) (response_id : Nat)
    (item_id : Option Nat) (g : Nat) :
    ((send_stream_chunk response_id item_id cs g).1).map audioDeltaShape
        = (chunksCanon cs.flatten).map (fun f => (1, f.length)) ∧
    (cs.flatten.length = 10000 →
      ((send_stream_chunk response_id item_id cs g).1).map audioDeltaShape = [(1, 10000)]) := by
  have hrcs : readChunkSize = 16000 := by decide
  have hgen : ((send_stream_chunk response_id item_id cs g).1).map audioDeltaShape
      = (chunksCanon cs.flatten).map (fun f => (1, f.length)) := by
    unfold send_stream_chunk
    rw [sendFrames_shapes]
    rw [streamFrames_spec cs [] (by simp)]
    simp
  refine ⟨hgen, fun h => ?_⟩
  rw [hgen]
  have hne : cs.flatten ≠ [] := by
    intro hh
    rw [hh] at h
    simp at h
  rw [chunksCanon_eq _ hne,
    List.take_of_length_le (by omega),
    List.drop_eq_nil_of_le (by omega), chunksCanon_nil]
  simp [h]

/-- C1 counterexample: a 10000-byte stream-TTS body produces a single
`response.audio.delta` of 10000 decoded bytes — not four deltas of
3200, 3200, 3200 and 400 bytes: the frame size in the code is
`2 * 5 * 16000 / 10 = 16000` bytes, not 3200. -/
theorem C1_frame_size_counterexample :
    ((send_stream_chunk 0 (some 1) [List.replicate 10000 0] 0).1).map audioDeltaShape
        = [(1, 10000)] ∧
    ((send_stream_chunk 0 (some 1) [List.replicate 10000 0] 0).1).map audioDeltaShape
        ≠ [(1, 3200), (1, 3200), (1, 3200), (1, 400)] := by
  have h : ([List.replicate 10000 (0 : Nat)].flatten).length = 10000 := by
    simp only [List.flatten_cons, List.flatten_nil, List.append_nil, List.length_replicate]
  have hmain := send_stream_chunk_shape [List.replicate 10000 0] 0 (some 1) 0
  rw [hmain.2 h]
  exact ⟨rfl, by decide⟩

/-- C1 (amended): the stream-TTS byte stream is chunked into frames of
exactly `read_chunk_size = 2 * 5 * 16000 / 10 = 16000` bytes (0.5 s of 16 kHz
mono PCM16), with a residual buffer carried across HTTP chunks and any final
short residual emitted as a last `response.audio.delta`; in particular a
stream of 10000 total bytes yields a single delta of 10000 decoded bytes with
`content_index` 1. -/
theorem C1_stream_framing (cs : List (List Nat)) (response_id : Nat)
    (item_id : Option Nat) (g : Nat) (h : cs.flatten.length = 10000) :
    ((send_stream_chunk response_id item_id cs g).1).map audioDeltaShape
      = [(1, 10000)] :=
  (send_stream_chunk_shape cs response_id item_id g).2 h

/-- C1 witness: the single-delta framing at a concrete 10000-byte stream split
into three HTTP chunks. -/
theorem C1_stream_framing_witness :
    (([List.replicate 4000 7, List.replicate 4000 7,
        List.replicate 2000 7] : List (List Nat)).flatten).length = 10000 ∧
    ((send_stream_chunk 5 (some 6)
        [List.replicate 4000 7, List.replicate 4000 7, List.replicate 2000 7] 0).1).map
        audioDeltaShape
      = [(1, 10000)] :=
  ⟨by simp only [List.flatten_cons, List.flatten_nil, List.append_nil, List.length_append,
      List.length_replicate],
   C1_stream_framing [List.replicate 4000 7, List.replicate 4000 7, List.replicate 2000 7]
     5 (some 6) 0 (by simp only [List.flatten_cons, List.flatten_nil, List.append_nil,
       List.length_append, List.length_replicate])⟩

end EchoKit
